import Mathlib

/-!
Verification of `magenta/interfaces/midi/midi_interaction.py`.

Shallow embedding of the module's data model and of the
`CallAndResponseMidiInteraction.run` tick loop. Python floats are modelled
as rationals (`ℚ`); MIDI control values read from the hub are modelled as
`Option ℕ`/`Option ℚ` (with `none` standing for Python's `None`). The
external `SequenceGenerator.generate` call (composed with
`magenta.music.trim_note_sequence`, neither of which is part of this
module) is an oracle parameter; logging, the metronome, and MIDI transport
side effects are not modelled. Observable effects of a tick (playback
updates, state-control emissions, generator invocations) are collected in
result lists.
-/

namespace MidiInteractionModel

/-- Model of a `music_pb2.NoteSequence` note: `(pitch, velocity, start_time,
end_time)` with times in absolute seconds. -/
structure Note where
  pitch : ℤ
  velocity : ℤ
  start_time : ℚ
  end_time : ℚ
deriving DecidableEq, Repr

/-- Model of a `music_pb2.NoteSequence`: the note list, the scalar
`total_time`, and the tempo list (each tempo reduced to its `qpm` field,
the only one the module touches). -/
structure NoteSequence where
  notes : List Note
  total_time : ℚ
  tempos : List ℚ
deriving DecidableEq, Repr

attribute [ext] Note NoteSequence

/-- A fresh `music_pb2.NoteSequence()`: no notes, zero total time, no
tempos. -/
def emptySequence : NoteSequence :=
  { notes := [], total_time := 0, tempos := [] }

/-- Model of `adjust_sequence_times` (lines 19-28): copy the sequence, add
`delta_time` to every note's `start_time` and `end_time` and to
`total_time`. The source copies via `CopyFrom` before retiming, so the
function is pure; the embedding reflects that directly. -/
def adjust_sequence_times (sequence : NoteSequence) (delta_time : ℚ) : NoteSequence :=
  { notes := sequence.notes.map (fun note =>
      { note with
          start_time := note.start_time + delta_time,
          end_time := note.end_time + delta_time }),
    total_time := sequence.total_time + delta_time,
    tempos := sequence.tempos }

/-- Python truthiness of an optional integer control value: `None` and `0`
are falsy, every other value is truthy. -/
def truthy : Option ℕ → Bool
  | none => false
  | some n => n != 0

/-- The `min_temp=0.1` default of `MidiInteraction._temperature`. -/
def min_temp : ℚ := 1 / 10

/-- The `max_temp=2.0` default of `MidiInteraction._temperature`. -/
def max_temp : ℚ := 2

/-- The `default=1.0` default of `MidiInteraction._temperature`. -/
def default_temp : ℚ := 1

/-- Model of `MidiInteraction._temperature` (lines 101-119) as a function
of the current control value: `default` when the value is `None`,
otherwise `min_temp + (val / 127.) * (max_temp - min_temp)`. -/
def temperature_of (val : Option ℚ) : ℚ :=
  match val with
  | none => default_temp
  | some v => min_temp + (v / 127) * (max_temp - min_temp)

/-- Model of `CallAndResponseMidiInteraction._min_listen_ticks`
(lines 280-285): `0` when the control value is `None`, else the value. -/
def min_listen_ticks_of (val : Option ℕ) : ℕ :=
  match val with
  | none => 0
  | some v => v

/-- Model of `CallAndResponseMidiInteraction._max_listen_ticks`
(lines 287-292): the Python float infinity when the value is falsy, else
the value; the unbounded infinity is represented as `none` and a concrete
bound as `some v`. -/
def max_listen_ticks_of (val : Option ℕ) : Option ℕ :=
  if truthy val then val else none

/-- Model of `CallAndResponseMidiInteraction._should_loop`
(lines 294-297): true iff the loop control number is truthy and the
current control value equals `127`. -/
def should_loop_of (loop_control_number : Option ℕ) (val : Option ℕ) : Bool :=
  truthy loop_control_number && val == some 127

/-- The comparison `listen_ticks >= self._max_listen_ticks` (line 414):
comparison with the float infinity (modelled `none`) is always false. -/
def geMaxListen (listen_ticks : ℕ) (max_listen : Option ℕ) : Bool :=
  match max_listen with
  | none => false
  | some m => decide (m ≤ listen_ticks)

/-- The value `max(note.end_time for note in notes) if notes else 0.0`
(lines 395-396). -/
def maxEndTime (notes : List Note) : ℚ :=
  match notes with
  | [] => 0
  | note :: rest => (rest.map Note.end_time).foldl max note.end_time

/-- The assignment `captured_sequence.tempos[0].qpm = self._qpm`
(line 392). Captured sequences from the hub always carry an initial tempo;
the empty case is unreachable and modelled as a no-op. -/
def setFirstQpm (tempos : List ℚ) (qpm : ℚ) : List ℚ :=
  match tempos with
  | [] => []
  | _ :: rest => qpm :: rest

/-- State values sent by `_update_state` (`State` class, lines 202-213). -/
def State.IDLE : ℕ := 0

/-- State value for `LISTENING` (`State` class, lines 202-213). -/
def State.LISTENING : ℕ := 1

/-- State value for `RESPONDING` (`State` class, lines 202-213). -/
def State.RESPONDING : ℕ := 2

/-- A generator invocation, as recorded when the loop calls `_generate`
(lines 445-449 and 489-493): the seed sequence and the
`(zero_time, response_start_time, response_end_time)` arguments. -/
structure GenCall where
  input_sequence : NoteSequence
  zero_time : ℚ
  response_start_time : ℚ
  response_end_time : ℚ

/-- Per-tick environment: the captured sequence delivered by
`self._captor.iterate`, the control values the loop reads on this tick,
the wall-clock latency observed at the post-generation check, and the
external generator oracle. `gen seed start end temp` stands for
`self._sequence_generator.generate` (on the zero-rebased seed, with the
generate section `[start, end]` and softmax temperature `temp`) composed
with `magenta.music.trim_note_sequence` to that same window — both live
outside this module, so their composite is left abstract. `gen_elapsed` is
`time.time() - response_start_time` at line 452; the two `time.time()`
reads at lines 452 and 454 are modelled as the same instant. -/
structure TickEnv where
  captured_sequence : NoteSequence
  qpm : ℚ
  min_listen_val : Option ℕ
  max_listen_val : Option ℕ
  response_ticks_val : Option ℕ
  temperature_val : Option ℚ
  loop_control_number : Option ℕ
  loop_val : Option ℕ
  allow_overlap : Bool
  gen_elapsed : ℚ
  gen : NoteSequence → ℚ → ℚ → ℚ → NoteSequence

/-- Mutable loop state carried across ticks of
`CallAndResponseMidiInteraction.run` (lines 363-374), together with the
three sticky signal flags (`_end_call`, `_panic`, `_mutate`). -/
structure RunState where
  last_tick_time : ℚ
  listen_ticks : ℕ
  response_sequence : NoteSequence
  response_start_time : ℚ
  response_duration : ℚ
  captor_start_time : ℚ
  end_call : Bool
  panic : Bool
  mutate : Bool

/-- Loop state at `run` startup (lines 363-374): counters zeroed, an empty
response sequence, and the captor window opened at `start_time`. -/
def initialState (start_time : ℚ) : RunState :=
  { last_tick_time := start_time,
    listen_ticks := 0,
    response_sequence := emptySequence,
    response_start_time := 0,
    response_duration := 0,
    captor_start_time := start_time,
    end_call := false,
    panic := false,
    mutate := false }

/-- Model of `CallAndResponseMidiInteraction._generate` (lines 299-341):
rebase the window and the seed to a zero time origin, call the generator
(with trimming folded into the oracle `gen`), and re-anchor the result to
absolute time. -/
def runGenerate (gen : NoteSequence → ℚ → ℚ → ℚ → NoteSequence)
    (temperature : ℚ) (input_sequence : NoteSequence)
    (zero_time response_start_time response_end_time : ℚ) : NoteSequence :=
  let response_start_time := response_start_time - zero_time
  let response_end_time := response_end_time - zero_time
  let response_sequence :=
    gen (adjust_sequence_times input_sequence (-zero_time))
      response_start_time response_end_time temperature
  adjust_sequence_times response_sequence zero_time

/-- Output of the respond branch (lines 422-470). -/
structure RespondOut where
  response_sequence : NoteSequence
  response_start_time : ℚ
  response_duration : ℚ
  captor_start_time : ℚ
  player_update : NoteSequence × Option ℚ
  gen_call : GenCall

/-- Model of the respond branch (lines 422-470): on a silent final tick,
extend the captured sequence one tick forward and advance the capture
start; resolve the response duration from the response-ticks control value
(falling back to the measured capture duration); generate; push the
response forward by `elapsed // tick_duration + 1` whole ticks when the
generation latency reached a quarter tick; record the playback update and
the new captor window start. -/
def respondStep (env : TickEnv) (captured_sequence : NoteSequence)
    (tick_time tick_duration : ℚ) (silent_tick : Bool)
    (captor_start_time : ℚ) : RespondOut :=
  let capture_start_time := captor_start_time
  let captured_sequence :=
    if silent_tick then
      { adjust_sequence_times captured_sequence tick_duration with
          total_time := tick_time }
    else captured_sequence
  let capture_start_time :=
    if silent_tick then capture_start_time + tick_duration else capture_start_time
  let num_ticks := env.response_ticks_val
  let response_duration :=
    if truthy num_ticks then (num_ticks.getD 0 : ℚ) * tick_duration
    else tick_time - capture_start_time
  let response_start_time := tick_time
  let response_sequence :=
    runGenerate env.gen (temperature_of env.temperature_val) captured_sequence
      capture_start_time response_start_time (response_start_time + response_duration)
  let late := decide (tick_duration / 4 ≤ env.gen_elapsed)
  let push_ticks : ℤ := Int.floor (env.gen_elapsed / tick_duration) + 1
  let response_start_time2 :=
    if late then response_start_time + (push_ticks : ℚ) * tick_duration
    else response_start_time
  let response_sequence2 :=
    if late then adjust_sequence_times response_sequence ((push_ticks : ℚ) * tick_duration)
    else response_sequence
  let captor_start2 :=
    if env.allow_overlap then response_start_time2
    else response_start_time2 + response_duration
  { response_sequence := response_sequence2,
    response_start_time := response_start_time2,
    response_duration := response_duration,
    captor_start_time := captor_start2,
    player_update := (response_sequence2, some response_start_time2),
    gen_call :=
      { input_sequence := captured_sequence,
        zero_time := capture_start_time,
        response_start_time := response_start_time,
        response_end_time := response_start_time + response_duration } }

/-- Output of the call-phase branch (lines 404-477). -/
structure CallPhaseOut where
  response_sequence : NoteSequence
  response_start_time : ℚ
  response_duration : ℚ
  captor_start_time : ℚ
  end_call : Bool
  listen_ticks : ℕ
  player_updates : List (NoteSequence × Option ℚ)
  state_updates : List ℕ
  gen_calls : List GenCall

/-- Model of the call-phase branching (lines 404-477): idle reset when no
notes were captured; otherwise end the call when the end-call flag is set,
the tick was silent, or the listen count reached the maximum — discarding
too-short calls and responding to the rest — else keep listening. -/
def callPhase (env : TickEnv) (captured_sequence : NoteSequence)
    (response_sequence : NoteSequence)
    (response_start_time response_duration captor_start_time : ℚ)
    (end_call : Bool) (tick_time tick_duration : ℚ) (silent_tick : Bool)
    (listen_ticks : ℕ) : CallPhaseOut :=
  if captured_sequence.notes = [] then
    { response_sequence := response_sequence,
      response_start_time := response_start_time,
      response_duration := response_duration,
      captor_start_time :=
        if captor_start_time < tick_time then tick_time else captor_start_time,
      end_call := false,
      listen_ticks := 0,
      player_updates := [],
      state_updates :=
        if response_sequence.total_time ≤ tick_time then [State.IDLE] else [],
      gen_calls := [] }
  else if end_call || silent_tick ||
      geMaxListen listen_ticks (max_listen_ticks_of env.max_listen_val) then
    if listen_ticks < min_listen_ticks_of env.min_listen_val then
      { response_sequence := response_sequence,
        response_start_time := response_start_time,
        response_duration := response_duration,
        captor_start_time := tick_time,
        end_call := false,
        listen_ticks := 0,
        player_updates := [],
        state_updates := [],
        gen_calls := [] }
    else
      let r := respondStep env captured_sequence tick_time tick_duration
        silent_tick captor_start_time
      { response_sequence := r.response_sequence,
        response_start_time := r.response_start_time,
        response_duration := r.response_duration,
        captor_start_time := r.captor_start_time,
        end_call := false,
        listen_ticks := 0,
        player_updates := [r.player_update],
        state_updates := [State.RESPONDING],
        gen_calls := [r.gen_call] }
  else
    { response_sequence := response_sequence,
      response_start_time := response_start_time,
      response_duration := response_duration,
      captor_start_time := captor_start_time,
      end_call := end_call,
      listen_ticks := listen_ticks,
      player_updates := [],
      state_updates := [State.LISTENING],
      gen_calls := [] }

/-- Output of the loop/mutate phase (lines 479-501). -/
structure LoopPhaseOut where
  response_sequence : NoteSequence
  response_start_time : ℚ
  mutate : Bool
  player_updates : List (NoteSequence × Option ℚ)
  gen_calls : List GenCall

/-- Model of the loop/mutate phase (lines 479-501): drop a mutate request
when the response has no notes; once the response has finished playing,
with looping enabled or a mutate pending, optionally regenerate from the
current response (mutate) and re-issue the response shifted to start at
the current tick. -/
def loopMutatePhase (env : TickEnv) (response_sequence : NoteSequence)
    (response_start_time response_duration : ℚ) (mutate : Bool)
    (tick_time : ℚ) : LoopPhaseOut :=
  let mutate := if mutate ∧ response_sequence.notes = [] then false else mutate
  if response_sequence.total_time ≤ tick_time ∧
      (should_loop_of env.loop_control_number env.loop_val ∨ mutate) then
    if mutate then
      let new_start_time := response_start_time + response_duration
      let new_end_time := new_start_time + response_duration
      let generated :=
        runGenerate env.gen (temperature_of env.temperature_val)
          response_sequence response_start_time new_start_time new_end_time
      let shifted := adjust_sequence_times generated (tick_time - new_start_time)
      { response_sequence := shifted,
        response_start_time := tick_time,
        mutate := false,
        player_updates := [(shifted, some tick_time)],
        gen_calls :=
          [{ input_sequence := response_sequence,
             zero_time := response_start_time,
             response_start_time := new_start_time,
             response_end_time := new_end_time }] }
    else
      let shifted :=
        adjust_sequence_times response_sequence (tick_time - response_start_time)
      { response_sequence := shifted,
        response_start_time := tick_time,
        mutate := mutate,
        player_updates := [(shifted, some tick_time)],
        gen_calls := [] }
  else
    { response_sequence := response_sequence,
      response_start_time := response_start_time,
      mutate := mutate,
      player_updates := [],
      gen_calls := [] }

/-- The tick timestamp (line 386): the captured sequence's `total_time`. -/
def tickTime (env : TickEnv) : ℚ :=
  env.captured_sequence.total_time

/-- The silent-tick test (lines 395-399): no captured note extends past
the previous tick boundary. -/
def tickSilent (env : TickEnv) (s : RunState) : Bool :=
  decide (maxEndTime env.captured_sequence.notes ≤ s.last_tick_time)

/-- The listen counter after the increment at lines 401-402. -/
def listenAfter (env : TickEnv) (s : RunState) : ℕ :=
  if tickSilent env s then s.listen_ticks else s.listen_ticks + 1

/-- Result of one iteration of the tick loop. -/
structure TickResult where
  state : RunState
  player_updates : List (NoteSequence × Option ℚ)
  state_updates : List ℕ
  gen_calls : List GenCall

/-- Model of one iteration of the `run` tick loop (lines 379-503): panic
handling first (flush the response sequence to playback and clear the
flag), then the call-phase branching, then the loop/mutate phase, then the
previous-tick bookkeeping. Metronome restarts and logging are external
side effects and are not modelled. -/
def tickStep (env : TickEnv) (s : RunState) : TickResult :=
  let response_sequence0 := if s.panic then emptySequence else s.response_sequence
  let panic_updates : List (NoteSequence × Option ℚ) :=
    if s.panic then [(emptySequence, none)] else []
  let tick_time := tickTime env
  let captured_sequence :=
    { env.captured_sequence with
        tempos := setFirstQpm env.captured_sequence.tempos env.qpm }
  let tick_duration := tick_time - s.last_tick_time
  let silent_tick := tickSilent env s
  let listen_ticks := listenAfter env s
  let c := callPhase env captured_sequence response_sequence0
    s.response_start_time s.response_duration s.captor_start_time s.end_call
    tick_time tick_duration silent_tick listen_ticks
  let m := loopMutatePhase env c.response_sequence c.response_start_time
    c.response_duration s.mutate tick_time
  { state :=
      { last_tick_time := tick_time,
        listen_ticks := c.listen_ticks,
        response_sequence := m.response_sequence,
        response_start_time := m.response_start_time,
        response_duration := c.response_duration,
        captor_start_time := c.captor_start_time,
        end_call := c.end_call,
        panic := false,
        mutate := m.mutate },
    player_updates := panic_updates ++ c.player_updates ++ m.player_updates,
    state_updates := c.state_updates,
    gen_calls := c.gen_calls ++ m.gen_calls }

/-- Model of `MidiInteraction.__init__` (lines 64-84): rejects a
multi-generator configuration with no generator-select control number. -/
def MidiInteraction_init (num_sequence_generators : ℕ)
    (generator_select_control_number : Option ℕ) : Except String Unit :=
  if generator_select_control_number = none ∧ 1 < num_sequence_generators then
    Except.error "generator_select_control_number cannot be None if there are multiple SequenceGenerators."
  else Except.ok ()

/-- Model of `CallAndResponseMidiInteraction.__init__` (lines 215-257):
the base-class check runs first (via `super().__init__`), then the
exactly-one-of check on `clock_signal`/`tick_duration`. The clock signal
is reduced to its presence. -/
def CallAndResponse_init (num_sequence_generators : ℕ)
    (generator_select_control_number : Option ℕ)
    (clock_signal : Option Unit) (tick_duration : Option ℚ) : Except String Unit :=
  match MidiInteraction_init num_sequence_generators
      generator_select_control_number with
  | Except.error e => Except.error e
  | Except.ok _ =>
    if ((if clock_signal = none then 1 else 0) +
        (if tick_duration = none then 1 else 0) : ℕ) ≠ 1 then
      Except.error "Exactly one of clock_signal or tick_duration must be specified."
    else Except.ok ()

/-- C2: for every timed sequence `s` and every delta `d`, shifting `s` by
`d` with `adjust_sequence_times` and then shifting the result by `-d`
yields a sequence equal to `s`: every note's `start_time` and `end_time`
and the sequence's `total_time` are restored exactly. -/
theorem C2_shift_invertible (s : NoteSequence) (d : ℚ) :
    adjust_sequence_times (adjust_sequence_times s d) (-d) = s := by
  cases s with
  | mk notes total_time tempos =>
  simp only [adjust_sequence_times, List.map_map, NoteSequence.mk.injEq]
  refine ⟨?_, by ring, trivial⟩
  induction notes with
  | nil => rfl
  | cons n rest ih =>
    cases n
    simp_all [Function.comp]

/-- C9: `adjust_sequence_times s d` produces a sequence whose notes are,
index for index, those of `s` with `start_time` and `end_time` offset by
`d` (pitch and velocity untouched), whose `total_time` is that of `s`
offset by `d`, and whose tempos are unchanged. The source builds the
result on a `CopyFrom` copy of the argument, never mutating `s`; the
embedding is accordingly a pure function of `s`. -/
theorem C9_adjust_pure_shift (s : NoteSequence) (d : ℚ) :
    (adjust_sequence_times s d).total_time = s.total_time + d ∧
    (adjust_sequence_times s d).tempos = s.tempos ∧
    List.Forall₂ (fun n n' : Note =>
        n'.pitch = n.pitch ∧ n'.velocity = n.velocity ∧
        n'.start_time = n.start_time + d ∧ n'.end_time = n.end_time + d)
      s.notes (adjust_sequence_times s d).notes := by
  refine ⟨rfl, rfl, ?_⟩
  simp only [adjust_sequence_times]
  induction s.notes with
  | nil => exact List.Forall₂.nil
  | cons n rest ih => exact List.Forall₂.cons ⟨rfl, rfl, rfl, rfl⟩ ih

/-- C6: the resolved temperature is a pure function of the bound control
value: `None` yields the default `1.0`, control value `0` yields
`min_temp = 0.1`, control value `127` yields `max_temp = 2.0`, and every
value `v` yields `min_temp + (v/127) * (max_temp - min_temp)`, linear in
`v`. -/
theorem C6_temperature_linear :
    temperature_of none = default_temp ∧ default_temp = 1 ∧
    temperature_of (some 0) = min_temp ∧ min_temp = 1 / 10 ∧
    temperature_of (some 127) = max_temp ∧ max_temp = 2 ∧
    ∀ v : ℕ, temperature_of (some (v : ℚ)) =
      min_temp + ((v : ℚ) / 127) * (max_temp - min_temp) :=
  ⟨rfl, rfl, by norm_num [temperature_of, min_temp, max_temp],
    rfl, by norm_num [temperature_of, min_temp, max_temp], rfl,
    fun _ => rfl⟩

/-- C10: the resolved `max_listen_ticks` is unbounded (the float
infinity, modelled `none`) exactly when the control value is falsy — unset
or equal to `0` — so a maximum call length of zero ticks can never be
configured. -/
theorem C10_max_listen_falsy (val : Option ℕ) :
    max_listen_ticks_of val = none ↔ (val = none ∨ val = some 0) := by
  cases val with
  | none => simp [max_listen_ticks_of, truthy]
  | some v =>
    by_cases h : v = 0 <;> simp [max_listen_ticks_of, truthy, h]

/-- C3: constructing `CallAndResponseMidiInteraction` raises `ValueError`
exactly when the configuration is invalid — more than one generator with
`generator_select_control_number` unset, or the number of unspecified
values among `clock_signal` and `tick_duration` different from one — and
succeeds for any other configuration. -/
theorem C3_init_validation (n : ℕ) (gsel : Option ℕ) (cs : Option Unit)
    (td : Option ℚ) :
    CallAndResponse_init n gsel cs td = Except.ok () ↔
      ¬((gsel = none ∧ 1 < n) ∨
        ((if cs = none then 1 else 0) + (if td = none then 1 else 0) : ℕ) ≠ 1) := by
  unfold CallAndResponse_init MidiInteraction_init
  by_cases h1 : gsel = none ∧ 1 < n <;>
    by_cases h2 :
      ((if cs = none then 1 else 0) + (if td = none then 1 else 0) : ℕ) ≠ 1 <;>
    simp [h1, h2]

/-- C1 (amended): on every tick on which a response is generated, with
`t = gen_elapsed` the wall time between the intended response start (the
tick timestamp) and the completion of generation, the code shifts the
scheduled start and every response timestamp forward by exactly
`floor(t / tick_duration) + 1` ticks when `t ≥ tick_duration / 4` — an
amount never smaller than `ceil(t / tick_duration)` — and applies no
shift when `t < tick_duration / 4`. The recorded generator call holds the
unshifted invocation, whose intended start is the tick timestamp. -/
theorem C1_latency_correction (env : TickEnv) (captured_sequence : NoteSequence)
    (tick_time tick_duration : ℚ) (silent_tick : Bool)
    (captor_start_time : ℚ) :
    (respondStep env captured_sequence tick_time tick_duration silent_tick
        captor_start_time).gen_call.response_start_time = tick_time ∧
    (respondStep env captured_sequence tick_time tick_duration silent_tick
        captor_start_time).response_start_time =
      (if tick_duration / 4 ≤ env.gen_elapsed then
        tick_time +
          ((Int.floor (env.gen_elapsed / tick_duration) + 1 : ℤ) : ℚ) * tick_duration
      else tick_time) ∧
    (respondStep env captured_sequence tick_time tick_duration silent_tick
        captor_start_time).response_sequence =
      (if tick_duration / 4 ≤ env.gen_elapsed then
        adjust_sequence_times
          (runGenerate env.gen (temperature_of env.temperature_val)
            (respondStep env captured_sequence tick_time tick_duration silent_tick
              captor_start_time).gen_call.input_sequence
            (respondStep env captured_sequence tick_time tick_duration silent_tick
              captor_start_time).gen_call.zero_time
            (respondStep env captured_sequence tick_time tick_duration silent_tick
              captor_start_time).gen_call.response_start_time
            (respondStep env captured_sequence tick_time tick_duration silent_tick
              captor_start_time).gen_call.response_end_time)
          (((Int.floor (env.gen_elapsed / tick_duration) + 1 : ℤ) : ℚ) * tick_duration)
      else
        runGenerate env.gen (temperature_of env.temperature_val)
          (respondStep env captured_sequence tick_time tick_duration silent_tick
            captor_start_time).gen_call.input_sequence
          (respondStep env captured_sequence tick_time tick_duration silent_tick
            captor_start_time).gen_call.zero_time
          (respondStep env captured_sequence tick_time tick_duration silent_tick
            captor_start_time).gen_call.response_start_time
          (respondStep env captured_sequence tick_time tick_duration silent_tick
            captor_start_time).gen_call.response_end_time) ∧
    Int.ceil (env.gen_elapsed / tick_duration) ≤
      Int.floor (env.gen_elapsed / tick_duration) + 1 := by
  refine ⟨rfl, ?_, ?_, Int.ceil_le_floor_add_one _⟩ <;>
    by_cases h : tick_duration / 4 ≤ env.gen_elapsed <;>
    simp [respondStep, h]

/-- Generator oracle returning an empty sequence, used for concrete
evaluations. -/
def trivialGen : NoteSequence → ℚ → ℚ → ℚ → NoteSequence :=
  fun _ _ _ _ => emptySequence

/-- Environment with no controls bound and an empty-sequence generator
whose observed generation latency is one full tick of two seconds. -/
def envLate : TickEnv :=
  { captured_sequence :=
      { notes := [{ pitch := 60, velocity := 100, start_time := 5/2, end_time := 3 }],
        total_time := 4, tempos := [120] },
    qpm := 120,
    min_listen_val := none,
    max_listen_val := none,
    response_ticks_val := none,
    temperature_val := none,
    loop_control_number := none,
    loop_val := none,
    allow_overlap := false,
    gen_elapsed := 2,
    gen := trivialGen }

/-- C1 counterexample: with `tick_duration = 2` and a generation latency
of exactly one full tick (`t = 2`), the claim demands a shift of
`ceil(2 / 2) = 1` tick, scheduling the response at `4 + 2 = 6`; the code
computes `2 // 2 + 1 = 2` ticks and schedules it at `8`. -/
theorem C1_counterexample :
    (respondStep envLate envLate.captured_sequence 4 2 false 0).response_start_time = 8 ∧
    (4 : ℚ) + ((Int.ceil ((2 : ℚ) / 2) : ℤ) : ℚ) * 2 = 6 ∧
    (8 : ℚ) ≠ 6 := by
  refine ⟨?_, by norm_num, by norm_num⟩
  norm_num [respondStep, envLate, truthy]

/-- C7: on every tick at whose start the panic flag is set — whatever the
rest of the state, i.e. regardless of phase — the response sequence is
replaced by an empty one which is issued to playback before any other
update of that tick, and the panic flag is cleared. -/
theorem C7_panic_flushes (env : TickEnv) (s : RunState) (hp : s.panic = true) :
    (tickStep env s).player_updates.head? = some (emptySequence, none) ∧
    (tickStep env s).state.panic = false := by
  refine ⟨?_, rfl⟩
  simp [tickStep, hp]

/-- State in the responding phase with the panic flag raised. -/
def stPanic : RunState :=
  { last_tick_time := 2,
    listen_ticks := 1,
    response_sequence :=
      { notes := [{ pitch := 64, velocity := 90, start_time := 2, end_time := 3 }],
        total_time := 6, tempos := [] },
    response_start_time := 2,
    response_duration := 4,
    captor_start_time := 6,
    end_call := false,
    panic := true,
    mutate := false }

/-- Witness for C7 at a concrete responding-phase state. -/
theorem C7_panic_flushes_witness :
    stPanic.panic = true ∧
    ((tickStep envLate stPanic).player_updates.head? = some (emptySequence, none) ∧
     (tickStep envLate stPanic).state.panic = false) :=
  ⟨rfl, C7_panic_flushes envLate stPanic rfl⟩

/-- C5: on every tick with captured notes on which the (incremented)
listen count has reached a configured `max_listen_ticks = some m`, the
state machine takes the call-ending branch and never the
continue-listening branch: the listen counter is reset to zero, the
end-call flag is cleared, and no `LISTENING` state update is emitted.
With `m ≤ listenAfter env s` allowing equality, a call reaching exactly
the maximum is ended, not continued. -/
theorem C5_max_listen_ends_call (env : TickEnv) (s : RunState) (m : ℕ)
    (hnotes : env.captured_sequence.notes ≠ [])
    (hmax : max_listen_ticks_of env.max_listen_val = some m)
    (hge : m ≤ listenAfter env s) :
    (tickStep env s).state.listen_ticks = 0 ∧
    (tickStep env s).state.end_call = false ∧
    State.LISTENING ∉ (tickStep env s).state_updates := by
  have hmaxb : geMaxListen (listenAfter env s)
      (max_listen_ticks_of env.max_listen_val) = true := by
    rw [hmax]
    simpa [geMaxListen] using hge
  by_cases hms : listenAfter env s < min_listen_ticks_of env.min_listen_val <;>
    simp [tickStep, callPhase, hnotes, hmaxb, hms, State.LISTENING,
      State.RESPONDING]

/-- Environment whose maximum listen count is one tick, with a note
captured during the last tick. -/
def envMaxOne : TickEnv :=
  { captured_sequence :=
      { notes := [{ pitch := 62, velocity := 80, start_time := 1/2, end_time := 1 }],
        total_time := 2, tempos := [120] },
    qpm := 120,
    min_listen_val := none,
    max_listen_val := some 1,
    response_ticks_val := none,
    temperature_val := none,
    loop_control_number := none,
    loop_val := none,
    allow_overlap := false,
    gen_elapsed := 0,
    gen := trivialGen }

/-- Witness for C5: a first non-silent tick reaches exactly
`listen_ticks = max_listen_ticks = 1` and the call is ended. -/
theorem C5_max_listen_ends_call_witness :
    envMaxOne.captured_sequence.notes ≠ [] ∧
    max_listen_ticks_of envMaxOne.max_listen_val = some 1 ∧
    1 ≤ listenAfter envMaxOne (initialState 0) ∧
    ((tickStep envMaxOne (initialState 0)).state.listen_ticks = 0 ∧
     (tickStep envMaxOne (initialState 0)).state.end_call = false ∧
     State.LISTENING ∉ (tickStep envMaxOne (initialState 0)).state_updates) :=
  ⟨by decide, by decide, by decide,
    C5_max_listen_ends_call envMaxOne (initialState 0) 1 (by decide) (by decide)
      (by decide)⟩

/-- With no pending mutate request, the loop/mutate phase never calls the
generator. -/
theorem loopMutatePhase_gen_calls_of_no_mutate (env : TickEnv)
    (response_sequence : NoteSequence)
    (response_start_time response_duration tick_time : ℚ) :
    (loopMutatePhase env response_sequence response_start_time
      response_duration false tick_time).gen_calls = [] := by
  simp only [loopMutatePhase, ite_self]
  split_ifs <;> first | rfl | simp_all

/-- C4 (amended): on every tick on which a call ends while the listen
count is below `min_listen_ticks` and no mutate request is pending, the
generator is not invoked at all, the capture window start is set to the
current tick time, the end-call flag is cleared, and the listen counter
is reset to zero. (Without the no-pending-mutate proviso a mutate request
arriving on the same tick can still invoke the generator; see the
counterexample.) -/
theorem C4_too_short_discards (env : TickEnv) (s : RunState)
    (hnotes : env.captured_sequence.notes ≠ [])
    (hend : (s.end_call || tickSilent env s ||
      geMaxListen (listenAfter env s)
        (max_listen_ticks_of env.max_listen_val)) = true)
    (hshort : listenAfter env s < min_listen_ticks_of env.min_listen_val)
    (hmut : s.mutate = false) :
    (tickStep env s).gen_calls = [] ∧
    (tickStep env s).state.captor_start_time = tickTime env ∧
    (tickStep env s).state.end_call = false ∧
    (tickStep env s).state.listen_ticks = 0 := by
  simp [tickStep, callPhase, hnotes, hend, hshort, hmut,
    loopMutatePhase_gen_calls_of_no_mutate]

/-- Environment for the C4 counterexample and witness: a call whose only
note ended before the previous tick boundary (a silent tick), with a
minimum call length of five ticks. -/
def envShort : TickEnv :=
  { captured_sequence :=
      { notes := [{ pitch := 60, velocity := 100, start_time := 1/2, end_time := 1 }],
        total_time := 4, tempos := [120] },
    qpm := 120,
    min_listen_val := some 5,
    max_listen_val := none,
    response_ticks_val := none,
    temperature_val := none,
    loop_control_number := none,
    loop_val := none,
    allow_overlap := false,
    gen_elapsed := 0,
    gen := trivialGen }

/-- State for the C4 counterexample: the end-call flag ends a too-short
call on this tick while a mutate request is pending against a non-empty
response. -/
def stShortMutate : RunState :=
  { last_tick_time := 2,
    listen_ticks := 0,
    response_sequence :=
      { notes := [{ pitch := 64, velocity := 90, start_time := 0, end_time := 1 }],
        total_time := 1, tempos := [] },
    response_start_time := 0,
    response_duration := 1,
    captor_start_time := 0,
    end_call := true,
    panic := false,
    mutate := true }

/-- C4 counterexample: a call ends while `listen_ticks < min_listen_ticks`
(here `0 < 5`), yet the generator is invoked on that same tick, on behalf
of the pending mutate request — refuting the claim that the generator is
not invoked on every such tick. -/
theorem C4_counterexample :
    envShort.captured_sequence.notes ≠ [] ∧
    stShortMutate.end_call = true ∧
    listenAfter envShort stShortMutate <
      min_listen_ticks_of envShort.min_listen_val ∧
    (tickStep envShort stShortMutate).gen_calls ≠ [] := by
  refine ⟨by decide, rfl, by decide, ?_⟩
  intro h
  have : (tickStep envShort stShortMutate).gen_calls.length = 0 :=
    h ▸ rfl
  simp [tickStep, callPhase, loopMutatePhase, envShort, stShortMutate,
    tickSilent, listenAfter, maxEndTime, min_listen_ticks_of, tickTime,
    setFirstQpm, geMaxListen, max_listen_ticks_of, truthy,
    should_loop_of] at this

/-- State for the C4 witness: the same too-short call with no pending
mutate. -/
def stShortClean : RunState :=
  { last_tick_time := 2,
    listen_ticks := 0,
    response_sequence := emptySequence,
    response_start_time := 0,
    response_duration := 1,
    captor_start_time := 0,
    end_call := true,
    panic := false,
    mutate := false }

/-- Witness for C4 at a concrete too-short call. -/
theorem C4_too_short_discards_witness :
    envShort.captured_sequence.notes ≠ [] ∧
    (stShortClean.end_call || tickSilent envShort stShortClean ||
      geMaxListen (listenAfter envShort stShortClean)
        (max_listen_ticks_of envShort.max_listen_val)) = true ∧
    listenAfter envShort stShortClean <
      min_listen_ticks_of envShort.min_listen_val ∧
    stShortClean.mutate = false ∧
    ((tickStep envShort stShortClean).gen_calls = [] ∧
     (tickStep envShort stShortClean).state.captor_start_time =
       tickTime envShort ∧
     (tickStep envShort stShortClean).state.end_call = false ∧
     (tickStep envShort stShortClean).state.listen_ticks = 0) :=
  ⟨by decide, by decide, by decide, rfl,
    C4_too_short_discards envShort stShortClean (by decide) (by decide)
      (by decide) rfl⟩

/-- With no pending mutate request, the loop/mutate phase leaves the
mutate flag clear. -/
theorem loopMutatePhase_mutate_of_no_mutate (env : TickEnv)
    (response_sequence : NoteSequence)
    (response_start_time response_duration tick_time : ℚ) :
    (loopMutatePhase env response_sequence response_start_time
      response_duration false tick_time).mutate = false := by
  simp only [loopMutatePhase, ite_self]
  split_ifs <;> rfl

/-- A mutate request against a response with no notes is dropped at the
top of the loop/mutate phase, so the phase behaves as if no mutate had
been requested. -/
theorem loopMutatePhase_empty_response (env : TickEnv)
    (response_sequence : NoteSequence)
    (response_start_time response_duration tick_time : ℚ) (b : Bool)
    (h : response_sequence.notes = []) :
    loopMutatePhase env response_sequence response_start_time
        response_duration b tick_time =
      loopMutatePhase env response_sequence response_start_time
        response_duration false tick_time := by
  cases b <;> simp [loopMutatePhase, h]

/-- The call-phase output of a tick, exactly the value `tickStep` computes
before the loop/mutate phase runs. -/
def callPhaseOf (env : TickEnv) (s : RunState) : CallPhaseOut :=
  callPhase env
    { env.captured_sequence with
        tempos := setFirstQpm env.captured_sequence.tempos env.qpm }
    (if s.panic then emptySequence else s.response_sequence)
    s.response_start_time s.response_duration s.captor_start_time s.end_call
    (tickTime env) (tickTime env - s.last_tick_time) (tickSilent env s)
    (listenAfter env s)

/-- The response sequence current at the mutate check (line 480): the
response as it stands after the tick's call/response handling — the value
whose notes the code tests before acting on a mutate request, freshly
generated on call-end ticks and unchanged otherwise. -/
def responseAtMutateCheck (env : TickEnv) (s : RunState) : NoteSequence :=
  (callPhaseOf env s).response_sequence

/-- A tick decomposes into the panic handling, the call phase
(`callPhaseOf`), and the loop/mutate phase, by unfolding `tickStep`. -/
theorem tickStep_phases (env : TickEnv) (s : RunState) :
    tickStep env s =
      { state :=
          { last_tick_time := tickTime env,
            listen_ticks := (callPhaseOf env s).listen_ticks,
            response_sequence :=
              (loopMutatePhase env (callPhaseOf env s).response_sequence
                (callPhaseOf env s).response_start_time
                (callPhaseOf env s).response_duration s.mutate
                (tickTime env)).response_sequence,
            response_start_time :=
              (loopMutatePhase env (callPhaseOf env s).response_sequence
                (callPhaseOf env s).response_start_time
                (callPhaseOf env s).response_duration s.mutate
                (tickTime env)).response_start_time,
            response_duration := (callPhaseOf env s).response_duration,
            captor_start_time := (callPhaseOf env s).captor_start_time,
            end_call := (callPhaseOf env s).end_call,
            panic := false,
            mutate :=
              (loopMutatePhase env (callPhaseOf env s).response_sequence
                (callPhaseOf env s).response_start_time
                (callPhaseOf env s).response_duration s.mutate
                (tickTime env)).mutate },
        player_updates :=
          (if s.panic then [(emptySequence, none)] else []) ++
            (callPhaseOf env s).player_updates ++
            (loopMutatePhase env (callPhaseOf env s).response_sequence
              (callPhaseOf env s).response_start_time
              (callPhaseOf env s).response_duration s.mutate
              (tickTime env)).player_updates,
        state_updates := (callPhaseOf env s).state_updates,
        gen_calls :=
          (callPhaseOf env s).gen_calls ++
            (loopMutatePhase env (callPhaseOf env s).response_sequence
              (callPhaseOf env s).response_start_time
              (callPhaseOf env s).response_duration s.mutate
              (tickTime env)).gen_calls } :=
  rfl

/-- C8 (amended): on every tick on which the mutate flag is set while the
response sequence current at the mutate check contains no notes, the
mutate flag is cleared and the tick's outcome is exactly the outcome of
the same tick with no mutate request — so no generation occurs on behalf
of the mutate request, and the mutate handling itself leaves the response
sequence and its start time unchanged, though the independent loop logic
may still shift them when looping is enabled (see the counterexample). -/
theorem C8_mutate_empty_noop (env : TickEnv) (s : RunState)
    (hm : s.mutate = true)
    (hresp : (responseAtMutateCheck env s).notes = []) :
    (tickStep env s).state.mutate = false ∧
    tickStep env s = tickStep env { s with mutate := false } := by
  have hresp2 : ((callPhaseOf env s).response_sequence).notes = [] := hresp
  have hmm : loopMutatePhase env (callPhaseOf env s).response_sequence
      (callPhaseOf env s).response_start_time
      (callPhaseOf env s).response_duration s.mutate (tickTime env) =
    loopMutatePhase env (callPhaseOf env s).response_sequence
      (callPhaseOf env s).response_start_time
      (callPhaseOf env s).response_duration false (tickTime env) :=
    loopMutatePhase_empty_response _ _ _ _ _ _ hresp2
  have hc : callPhaseOf env { s with mutate := false } = callPhaseOf env s := by
    obtain ⟨_, _, _, _, _, _, _, _, _⟩ := s
    rfl
  have hmu : ({ s with mutate := false } : RunState).mutate = false := by
    obtain ⟨_, _, _, _, _, _, _, _, _⟩ := s
    rfl
  have hpan : ({ s with mutate := false } : RunState).panic = s.panic := by
    obtain ⟨_, _, _, _, _, _, _, _, _⟩ := s
    rfl
  constructor
  · rw [tickStep_phases]
    dsimp only
    rw [hmm, loopMutatePhase_mutate_of_no_mutate]
  · rw [tickStep_phases env s,
      tickStep_phases env { s with mutate := false }, hc, hmu, hpan, hmm]

/-- Environment for C8: an idle tick (no captured notes) with looping
enabled. -/
def envIdleLoop : TickEnv :=
  { captured_sequence := { notes := [], total_time := 2, tempos := [120] },
    qpm := 120,
    min_listen_val := none,
    max_listen_val := none,
    response_ticks_val := none,
    temperature_val := none,
    loop_control_number := some 9,
    loop_val := some 127,
    allow_overlap := false,
    gen_elapsed := 0,
    gen := trivialGen }

/-- Startup state with a pending mutate request and the (empty) initial
response sequence. -/
def stMutateEmpty : RunState :=
  { initialState 0 with mutate := true }

/-- C8 counterexample: with a mutate request pending while the response
sequence — both at tick start and at the mutate check — has no notes, and
looping enabled, the response start time does not stay unchanged over the
tick: the loop logic shifts it to the current tick (from `0` to `2`),
refuting the claim that the response sequence and its start time are left
unchanged on every such tick. -/
theorem C8_counterexample :
    stMutateEmpty.mutate = true ∧
    stMutateEmpty.response_sequence.notes = [] ∧
    (responseAtMutateCheck envIdleLoop stMutateEmpty).notes = [] ∧
    (tickStep envIdleLoop stMutateEmpty).state.response_start_time ≠
      stMutateEmpty.response_start_time := by
  refine ⟨rfl, rfl, by decide, ?_⟩
  decide

/-- Witness for C8 at a concrete tick with a pending mutate and an empty
response at the mutate check. -/
theorem C8_mutate_empty_noop_witness :
    stMutateEmpty.mutate = true ∧
    (responseAtMutateCheck envIdleLoop stMutateEmpty).notes = [] ∧
    ((tickStep envIdleLoop stMutateEmpty).state.mutate = false ∧
     tickStep envIdleLoop stMutateEmpty =
       tickStep envIdleLoop { stMutateEmpty with mutate := false }) :=
  ⟨rfl, by decide,
    C8_mutate_empty_noop envIdleLoop stMutateEmpty rfl (by decide)⟩

end MidiInteractionModel
